import Mathlib

/-!
Verification development for the webhookproxy reverse request broker
(src/index.js). The JavaScript source is shallowly embedded: each relevant
method of the ProxyServer class becomes a Lean function over an explicit
state type; JS Maps become association lists in insertion order; machine
time is an Int (milliseconds); writes to an HTTP response object are
modelled as emitted ReplyEvent values. JSON error bodies are abstracted
to their message text.
-/

set_option autoImplicit false

namespace WebhookProxy

/-! ## Input validator (src/index.js lines 1028-1068) -/

/-- Characters matched by the regex class backslash-s (ASCII part; the
patterns tested are ASCII so this is what the injection tests exercise). -/
def isSpaceChar (c : Char) : Bool :=
  c = ' ' || c = '\t' || c = '\n' || c = '\r' || c = '\x0b' || c = '\x0c'

/-- Characters matched by the regex class backslash-w. -/
def isWordChar (c : Char) : Bool :=
  c.isAlphanum || c = '_'

/-- Does the given suffix start with a match of the pattern on-w+-s*-= ?
Embeds the third entry of dangerousPatterns in validateInput. -/
def onAttrAt : List Char → Bool
  | 'o' :: 'n' :: rest =>
      let w := rest.takeWhile isWordChar
      let r := rest.dropWhile isWordChar
      decide (1 ≤ w.length) &&
        (match r.dropWhile isSpaceChar with
         | '=' :: _ => true
         | _ => false)
  | _ => false

/-- Does the given suffix start with a match of eval-s*-openparen ?
Embeds the fourth entry of dangerousPatterns in validateInput. -/
def evalCallAt (s : List Char) : Bool :=
  if List.isPrefixOf ['e', 'v', 'a', 'l'] s then
    match (s.drop 4).dropWhile isSpaceChar with
    | '(' :: _ => true
    | _ => false
  else false

/-- Does the given suffix start with a match of expression-s*-openparen ?
Embeds the fifth entry of dangerousPatterns in validateInput. -/
def exprCallAt (s : List Char) : Bool :=
  if List.isPrefixOf ['e', 'x', 'p', 'r', 'e', 's', 's', 'i', 'o', 'n'] s then
    match (s.drop 10).dropWhile isSpaceChar with
    | '(' :: _ => true
    | _ => false
  else false

/-- True when some suffix of the character list satisfies the predicate. -/
def scanAny (p : List Char → Bool) : List Char → Bool
  | [] => p []
  | c :: rest => p (c :: rest) || scanAny p rest

/-- True when the pattern occurs as a contiguous run inside the subject. -/
def containsSeq (pat s : List Char) : Bool :=
  scanAny (fun suf => List.isPrefixOf pat suf) s

/-- validateInput (src/index.js lines 1035-1050): the string must not match
any of the seven case-insensitive injection patterns. Case-insensitivity is
embedded by lowering the subject first; every pattern is lower case. -/
def validateInput (s : String) : Bool :=
  let l := s.toList.map Char.toLower
  !(containsSeq ['<', 's', 'c', 'r', 'i', 'p', 't'] l ||
    containsSeq ['j', 'a', 'v', 'a', 's', 'c', 'r', 'i', 'p', 't', ':'] l ||
    scanAny onAttrAt l ||
    scanAny evalCallAt l ||
    scanAny exprCallAt l ||
    containsSeq ['v', 'b', 's', 'c', 'r', 'i', 'p', 't', ':'] l ||
    containsSeq ['d', 'a', 't', 'a', ':', 't', 'e', 'x', 't', '/', 'h', 't', 'm', 'l'] l)

/-- The dangerousHeaders list of sanitizeHeaders (src/index.js lines 1054-1058). -/
def dangerousHeaders : List String :=
  ["host", "content-length", "transfer-encoding", "connection",
   "upgrade", "proxy-connection", "proxy-authenticate",
   "proxy-authorization", "te", "trailers"]

/-- ASCII lower-casing of a header name, as key.toLowerCase() does for the
ASCII names involved. -/
def lowerName (s : String) : String :=
  String.mk (s.toList.map Char.toLower)

/-- sanitizeHeaders (src/index.js lines 1052-1068): keep a header exactly
when its lowered name is not in dangerousHeaders and its value passes
validateInput; original key case is preserved. Headers are an association
list in object insertion order. -/
def sanitizeHeaders (headers : List (String × String)) : List (String × String) :=
  headers.filter (fun kv =>
    !(dangerousHeaders.contains (lowerName kv.1)) && validateInput kv.2)

/-- Characters admitted by the slug regex class of validateSlug. -/
def isSlugChar (c : Char) : Bool :=
  ('a' ≤ c && c ≤ 'z') || ('A' ≤ c && c ≤ 'Z') ||
  ('0' ≤ c && c ≤ '9') || c = '_' || c = '-'

/-- validateSlug (src/index.js lines 1028-1033): length between 1 and 50
and every character in the slug character class. -/
def validateSlug (s : String) : Bool :=
  (decide (1 ≤ s.length) && decide (s.length ≤ 50)) && s.toList.all isSlugChar

/-- The slug-admission slice of setupHttpServer (src/index.js lines
116-151): empty slug 400, invalid slug 400, reserved slug 400, whitelist
miss 403, otherwise admitted (none). -/
def slugGate (whitelist : List String) (slug : String) : Option Nat :=
  if slug = "" then some 400
  else if !validateSlug slug then some 400
  else if slug = "status" then some 400
  else if decide (0 < whitelist.length) && !(whitelist.contains slug) then some 403
  else none

/-! ## Data model of the dispatch engine (src/index.js lines 15-64)

Sessions are identified by numbers; the clients Map becomes an association
list slug to session, the pendingRequests Map an association list request
id to record, both in insertion order, as JS Map iteration is. -/

/-- An inbound HTTP request as the broker sees it: the request line data,
its headers, and the body as the stream chunks that will arrive. -/
structure HttpRequest where
  method : String
  url : String
  headers : List (String × String)
  chunks : List String
deriving Repr, DecidableEq

/-- The captured request produced by collectRequestData. -/
structure CapturedRequest where
  method : String
  url : String
  headers : List (String × String)
  body : String
deriving Repr, DecidableEq

/-- The two rejection causes inside collectRequestData (src/index.js lines
549-564): body over the size limit, or method/url failing validateInput. -/
inductive CollectError where
  | bodyTooLarge
  | invalidInput
deriving Repr, DecidableEq

/-- securityConfig.maxRequestSize (src/index.js line 37): 10 MiB. -/
def maxRequestSize : Nat := 10 * 1024 * 1024

/-- The chunk accumulation loop of collectRequestData (src/index.js lines
542-557): append each chunk; as soon as the accumulated length exceeds the
maximum, reject without reading further chunks. -/
def accumulateBody (maxSize : Nat) : List String → String → Option String
  | [], acc => some acc
  | chunk :: rest, acc =>
      let acc' := acc ++ chunk
      if maxSize < acc'.length then none
      else accumulateBody maxSize rest acc'

/-- collectRequestData (src/index.js lines 539-588): accumulate the body
under the size limit, then validate method and url, then capture with
sanitised headers. -/
def collectRequestData (maxSize : Nat) (req : HttpRequest) : Except CollectError CapturedRequest :=
  match accumulateBody maxSize req.chunks "" with
  | none => .error .bodyTooLarge
  | some body =>
      if !(validateInput req.method && validateInput req.url) then .error .invalidInput
      else .ok { method := req.method, url := req.url,
                 headers := sanitizeHeaders req.headers, body := body }

/-- One entry of the pendingRequests Map. The with-client path stores a
startTime and no request (src/index.js lines 473-479); the queued path
stores the request and no startTime (lines 517-523). The reply sink and
timer handle are left implicit: replies are emitted events and a record's
timer lives exactly as long as the record. -/
structure PendingRecord where
  slug : String
  timestamp : Int
  startTime : Option Int
  req : Option HttpRequest
deriving Repr, DecidableEq

/-- A record has been forwarded through a session exactly when it carries a
startTime. -/
def PendingRecord.isForwarded (r : PendingRecord) : Bool :=
  r.startTime.isSome

/-- The counter part of this.stats (src/index.js lines 20-27). -/
structure Stats where
  totalRequests : Nat
  successfulResponses : Nat
  failedResponses : Nat
deriving Repr, DecidableEq

/-- The engine state: slug bindings, pending table, counters. -/
structure ProxyState where
  clients : List (String × Nat)
  pending : List (String × PendingRecord)
  stats : Stats
deriving Repr, DecidableEq

/-- A write of an HTTP reply to the sink of the named request. -/
structure ReplyEvent where
  requestId : String
  status : Nat
  headers : List (String × String)
  body : String
deriving Repr, DecidableEq

/-- Combined Map.get and Map.delete on the pending table: the looked-up
record, if any, and the table without it. -/
def removePending : List (String × PendingRecord) → String →
    Option PendingRecord × List (String × PendingRecord)
  | [], _ => (none, [])
  | (k, r) :: rest, rid =>
      if k = rid then (some r, rest)
      else
        let found := removePending rest rid
        (found.1, (k, r) :: found.2)

/-! ## Dispatch operations -/

/-- handleRequestWithClient (src/index.js lines 415-495). The request id is
passed in (the source draws a fresh uuid); sendOk tells whether
client.send throws. totalRequests is incremented first; a collection
failure lands in the catch block with a 500; a send failure replies 500
without storing; otherwise the record is stored as forwarded. -/
def handleRequestWithClient (maxSize : Nat) (s : ProxyState) (rid slug : String)
    (req : HttpRequest) (sendOk : Bool) (now : Int) : ProxyState × List ReplyEvent :=
  let stats1 : Stats := { s.stats with totalRequests := s.stats.totalRequests + 1 }
  match collectRequestData maxSize req with
  | .error _ =>
      ({ s with stats := { stats1 with failedResponses := stats1.failedResponses + 1 } },
       [{ requestId := rid, status := 500, headers := [], body := "Internal server error" }])
  | .ok _ =>
      if sendOk then
        ({ s with stats := stats1,
                  pending := s.pending ++
                    [(rid, { slug := slug, timestamp := now, startTime := some now, req := none })] },
         [])
      else
        ({ s with stats := { stats1 with failedResponses := stats1.failedResponses + 1 } },
         [{ requestId := rid, status := 500, headers := [],
            body := "Failed to send request to WebSocket client" }])

/-- handleRequestWithoutClient (src/index.js lines 497-537): store the
request as a queued record; no counter is touched and nothing is written. -/
def handleRequestWithoutClient (s : ProxyState) (rid slug : String)
    (req : HttpRequest) (now : Int) : ProxyState × List ReplyEvent :=
  ({ s with pending := s.pending ++
      [(rid, { slug := slug, timestamp := now, startTime := none, req := some req })] },
   [])

/-- The 150 s forward-deadline callback (src/index.js lines 458-471); it
fires only while its record is still present (completion paths clear the
timer), replies 504 and counts a failure. -/
def requestTimeout (s : ProxyState) (rid : String) : ProxyState × List ReplyEvent :=
  match removePending s.pending rid with
  | (none, _) => (s, [])
  | (some _, rest) =>
      ({ s with pending := rest,
                stats := { s.stats with failedResponses := s.stats.failedResponses + 1 } },
       [{ requestId := rid, status := 504, headers := [], body := "Request timeout" }])

/-- The 30 s queue-wait callback (src/index.js lines 504-515): replies 504
and removes the record, touching no counter. -/
def queueWaitTimeout (s : ProxyState) (rid : String) : ProxyState × List ReplyEvent :=
  match removePending s.pending rid with
  | (none, _) => (s, [])
  | (some _, rest) =>
      ({ s with pending := rest },
       [{ requestId := rid, status := 504, headers := [],
          body := "No WebSocket client connected within timeout" }])

/-- A structured response inside a response frame (statusCode, headers and
body are each optional JSON fields). -/
structure WsResponse where
  statusCode : Option Nat
  headers : Option (List (String × String))
  body : Option String
deriving Repr, DecidableEq

/-- A response frame as dispatched by handleWebSocketMessage (src/index.js
line 265): slug, requestId and response all present. -/
structure ResponseMessage where
  slug : String
  requestId : String
  response : WsResponse
deriving Repr, DecidableEq

/-- The JS expression response.statusCode or-else 200 (src/index.js line
634): absent or the falsy number 0 yield 200. -/
def jsOrStatus : Option Nat → Nat
  | none => 200
  | some n => if n = 0 then 200 else n

/-- handleClientResponse (src/index.js lines 590-663): look up the pending
record by requestId alone; an unknown id is logged and discarded; a known
id is completed with the frame's response and counted as a success. The
frame's slug and the sending session are not consulted (the source passes
only the message, line 268). -/
def handleClientResponse (s : ProxyState) (m : ResponseMessage) : ProxyState × List ReplyEvent :=
  match removePending s.pending m.requestId with
  | (none, _) => (s, [])
  | (some _, rest) =>
      ({ s with pending := rest,
                stats := { s.stats with
                           successfulResponses := s.stats.successfulResponses + 1 } },
       [{ requestId := m.requestId, status := jsOrStatus m.response.statusCode,
          headers := m.response.headers.getD [], body := m.response.body.getD "" }])

/-- The loop of rejectPendingRequestsForSlug (src/index.js lines 354-379):
every record whose slug matches is answered 503 and deleted; counters are
untouched. -/
def rejectLoop (slug : String) : List (String × PendingRecord) →
    List (String × PendingRecord) × List ReplyEvent
  | [] => ([], [])
  | (k, r) :: rest =>
      let res := rejectLoop slug rest
      if r.slug = slug then
        (res.1, { requestId := k, status := 503, headers := [],
                  body := "No active WebSocket client for this slug" } :: res.2)
      else ((k, r) :: res.1, res.2)

/-- rejectPendingRequestsForSlug (src/index.js lines 354-379). -/
def rejectPendingRequestsForSlug (s : ProxyState) (slug : String) :
    ProxyState × List ReplyEvent :=
  let res := rejectLoop slug s.pending
  ({ s with pending := res.1 }, res.2)

/-- The client-scan of removeClient (src/index.js lines 337-348): the first
binding held by the closing session is removed; the loop breaks after it. -/
def removeClientEntry : List (String × Nat) → Nat →
    Option String × List (String × Nat)
  | [], _ => (none, [])
  | (sl, c) :: rest, sess =>
      if c = sess then (some sl, rest)
      else
        let res := removeClientEntry rest sess
        (res.1, (sl, c) :: res.2)

/-- removeClient (src/index.js lines 328-352) for a non-status session:
drop the binding, then reject the pending requests of its slug. -/
def removeClient (s : ProxyState) (sess : Nat) : ProxyState × List ReplyEvent :=
  match removeClientEntry s.clients sess with
  | (none, _) => (s, [])
  | (some slug, clients') =>
      rejectPendingRequestsForSlug { s with clients := clients' } slug

/-- The outcome of forwarding one drained record: records inserted into the
pending table, replies written, updated counters. -/
structure DrainOutcome where
  inserted : List (String × PendingRecord)
  events : List ReplyEvent
  stats : Stats
deriving Repr, DecidableEq

/-- The result of the drain loop over the whole pending table. -/
structure DrainResult where
  kept : List (String × PendingRecord)
  inserted : List (String × PendingRecord)
  events : List ReplyEvent
  stats : Stats
  processed : List String
deriving Repr, DecidableEq

/-- The loop of processPendingRequestsForSlug (src/index.js lines 381-413):
every record of the slug is deleted from the table and re-run through
handleRequestWithClient under a fresh id. A forwarded record stores no
request, so the source passes undefined and collectRequestData rejects into
the 500 catch path; that branch is spelled out here. The loop never stops
early: a failure only logs and the iteration continues. newId i and
sendOk i are the fresh uuid and the send outcome of the i-th drained
record. -/
def drainLoop (maxSize : Nat) (now : Int) (newId : Nat → String) (sendOk : Nat → Bool)
    (slug : String) : List (String × PendingRecord) → Nat → Stats → DrainResult
  | [], _, st => { kept := [], inserted := [], events := [], stats := st, processed := [] }
  | (k, r) :: rest, i, st =>
      if r.slug = slug then
        let rid := newId i
        let out : DrainOutcome :=
          match r.req with
          | none =>
              let st1 : Stats := { st with totalRequests := st.totalRequests + 1 }
              { inserted := [],
                events := [{ requestId := rid, status := 500, headers := [],
                             body := "Internal server error" }],
                stats := { st1 with failedResponses := st1.failedResponses + 1 } }
          | some q =>
              let p := handleRequestWithClient maxSize
                { clients := [], pending := [], stats := st } rid r.slug q (sendOk i) now
              { inserted := p.1.pending, events := p.2, stats := p.1.stats }
        let res := drainLoop maxSize now newId sendOk slug rest (i + 1) out.stats
        { kept := res.kept, inserted := out.inserted ++ res.inserted,
          events := out.events ++ res.events, stats := res.stats,
          processed := k :: res.processed }
      else
        let res := drainLoop maxSize now newId sendOk slug rest i st
        { res with kept := (k, r) :: res.kept }

/-- processPendingRequestsForSlug (src/index.js lines 381-413): run the
drain loop and return the new state, the written replies and the processed
count. Records inserted by the re-forwarding land after the survivors, as
the asynchronous set calls run once the loop is done. -/
def processPendingRequestsForSlug (maxSize : Nat) (now : Int) (newId : Nat → String)
    (sendOk : Nat → Bool) (s : ProxyState) (slug : String) :
    ProxyState × List ReplyEvent × Nat :=
  let res := drainLoop maxSize now newId sendOk slug s.pending 0 s.stats
  ({ s with pending := res.kept ++ res.inserted, stats := res.stats },
   res.events, res.processed.length)

/-! ## Rate-limit gate (src/index.js lines 995-1026) -/

/-- checkRateLimit for plain HTTP requests: prune the per-address timestamp
list to the trailing minute, refuse when the pruned count has reached the
maximum, otherwise record the arrival and admit. -/
def checkRateLimit (maxReq : Nat) (now : Int) (requests : List Int) : Bool × List Int :=
  let pruned := requests.filter (fun t => decide (now - 60000 < t))
  if maxReq ≤ pruned.length then (false, pruned)
  else (true, pruned ++ [now])

/-- The gate applied to a sequence of arrivals from one source address,
threading the tracker list (src/index.js lines 88-93 run the gate once per
request). -/
def admitSeq (maxReq : Nat) : List Int → List Int → List Bool × List Int
  | [], requests => ([], requests)
  | now :: rest, requests =>
      let c := checkRateLimit maxReq now requests
      let r := admitSeq maxReq rest c.2
      (c.1 :: r.1, r.2)

/-- The HTTP status the gate decision produces: an admitted request carries
no gate status, a refused one is answered 429 (src/index.js lines 88-93). -/
def rateLimitStatus (ok : Bool) : Option Nat :=
  if ok then none else some 429

/-! ## Memory cleanup (src/index.js lines 808-863, stale-pending slice) -/

/-- The stale-pending loop of performMemoryCleanup (src/index.js lines
845-853): a record strictly older than the cutoff has its timer cleared and
is deleted; the cleared request ids are returned. -/
def cleanupLoop (staleCutoff : Int) : List (String × PendingRecord) →
    List (String × PendingRecord) × List String
  | [] => ([], [])
  | (k, r) :: rest =>
      let res := cleanupLoop staleCutoff rest
      if r.timestamp < staleCutoff then (res.1, k :: res.2)
      else ((k, r) :: res.1, res.2)

/-- performMemoryCleanup restricted to the pending table (src/index.js
lines 845-853): cutoff is 300000 ms before now; the result carries the
surviving table, the ids whose timers were cleared, and the reply writes
performed, of which there are none. -/
def performMemoryCleanup (now : Int) (s : ProxyState) :
    ProxyState × List String × List ReplyEvent :=
  let res := cleanupLoop (now - 300000) s.pending
  ({ s with pending := res.1 }, res.2, [])

/-- The statistics identity claimed by the specification. -/
def statsInvariant (s : ProxyState) : Prop :=
  s.stats.successfulResponses + s.stats.failedResponses + s.pending.length =
    s.stats.totalRequests

/-! ## Shared helper lemmas -/

lemma removePending_fst_none {l : List (String × PendingRecord)} {rid : String}
    (h : (removePending l rid).1 = none) : removePending l rid = (none, l) := by
  induction l with
  | nil => rfl
  | cons hd tl ih =>
      obtain ⟨k, r⟩ := hd
      by_cases hk : k = rid
      · simp [removePending, hk] at h
      · have h' : (removePending tl rid).1 = none := by
          simpa [removePending, hk] using h
        simp [removePending, hk, ih h']

lemma removePending_some_length {l : List (String × PendingRecord)} {rid : String}
    {r : PendingRecord} {rest : List (String × PendingRecord)}
    (h : removePending l rid = (some r, rest)) : l.length = rest.length + 1 := by
  induction l generalizing rest with
  | nil => simp [removePending] at h
  | cons hd tl ih =>
      obtain ⟨k, rr⟩ := hd
      by_cases hk : k = rid
      · simp [removePending, hk] at h
        rw [← h.2]
        simp
      · simp only [removePending, hk, if_neg, ite_false] at h
        have h1 : (removePending tl rid).1 = some r := by
          have := congrArg Prod.fst h
          simpa using this
        have h2 : (k, rr) :: (removePending tl rid).2 = rest := by
          have := congrArg Prod.snd h
          simpa using this
        have hx : removePending tl rid = (some r, (removePending tl rid).2) := by
          rw [← h1]
        have := ih hx
        rw [← h2]
        simp [this]

/-! ## Claim C9 -/

/-- C9: the header sanitiser is idempotent: applying sanitizeHeaders to its
own output yields the same header mapping as applying it once. -/
theorem sanitizeHeaders_idempotent (h : List (String × String)) :
    sanitizeHeaders (sanitizeHeaders h) = sanitizeHeaders h := by
  simp [sanitizeHeaders, List.filter_filter]

/-! ## Claim C8 -/

/-- A valid slug of the maximal length 50. -/
def fiftySlug : String := String.mk (List.replicate 50 'a')

/-- C8: a request slug is accepted by the admission gate only if it has
length 1 to 50 and every character is in the class A-Z a-z 0-9 underscore
hyphen; an empty slug and a slug of length 51 are rejected with 400, and a
valid slug of length 50 is accepted. -/
theorem slug_validation_boundaries (slug : String) :
    (slugGate [] slug = none →
      1 ≤ slug.length ∧ slug.length ≤ 50 ∧ slug.toList.all isSlugChar = true) ∧
    (slug.length = 0 → slugGate [] slug = some 400) ∧
    (slug.length = 51 → slugGate [] slug = some 400) ∧
    (slug = fiftySlug → slugGate [] slug = none) := by
  refine ⟨?_, ?_, ?_, ?_⟩
  · intro hg
    by_cases hs : slug = ""
    · simp [slugGate, hs] at hg
    · by_cases hv : validateSlug slug = true
      · have := hv
        simp only [validateSlug, Bool.and_eq_true, decide_eq_true_eq] at this
        exact ⟨this.1.1, this.1.2, this.2⟩
      · simp [slugGate, hs, hv] at hg
  · intro h0
    by_cases hs : slug = ""
    · simp [slugGate, hs]
    · have hv : validateSlug slug = false := by
        simp [validateSlug, h0]
      simp [slugGate, hs, hv]
  · intro h51
    have hs : slug ≠ "" := by
      intro he
      rw [he] at h51
      simp at h51
    have hv : validateSlug slug = false := by
      simp [validateSlug, h51]
    simp [slugGate, hs, hv]
  · intro he
    subst he
    decide

/-- C8 witness: the admission gate accepts the concrete length-50 slug. -/
theorem slug_validation_boundaries_witness :
    slugGate [] fiftySlug = none :=
  (slug_validation_boundaries fiftySlug).2.2.2 rfl

/-! ## Claim C10 -/

lemma cleanupLoop_eq (c : Int) (l : List (String × PendingRecord)) :
    cleanupLoop c l =
      (l.filter (fun p => !decide (p.2.timestamp < c)),
       (l.filter (fun p => decide (p.2.timestamp < c))).map Prod.fst) := by
  induction l with
  | nil => rfl
  | cons hd tl ih =>
      obtain ⟨k, r⟩ := hd
      by_cases hm : r.timestamp < c
      · simp [cleanupLoop, ih, hm]
      · simp [cleanupLoop, ih, hm]

/-- C10: the periodic memory-cleanup task deletes exactly the pending
records whose insertion timestamp is strictly older than 300 seconds,
clearing the timer of each deleted record (the cleared ids are returned),
while keeping the rest, leaving the counters and bindings unchanged and
writing nothing to any reply sink. -/
theorem memory_cleanup_stale_records (now : Int) (s : ProxyState) :
    (performMemoryCleanup now s).1.pending =
      s.pending.filter (fun p => !decide (p.2.timestamp < now - 300000)) ∧
    (performMemoryCleanup now s).2.1 =
      (s.pending.filter (fun p => decide (p.2.timestamp < now - 300000))).map Prod.fst ∧
    (performMemoryCleanup now s).1.stats = s.stats ∧
    (performMemoryCleanup now s).1.clients = s.clients ∧
    (performMemoryCleanup now s).2.2 = ([] : List ReplyEvent) := by
  simp [performMemoryCleanup, cleanupLoop_eq]

/-! ## Claim C1 -/

/-- The all-zero counters of a fresh ProxyServer. -/
def emptyStats : Stats :=
  { totalRequests := 0, successfulResponses := 0, failedResponses := 0 }

/-- The state of a fresh ProxyServer: no bindings, no pending records. -/
def initState : ProxyState :=
  { clients := [], pending := [], stats := emptyStats }

/-- C1 (amended): a response frame is delivered exactly when a pending
record with its request id exists; an unknown id is discarded with a log
entry and the state is untouched. Neither the frame's slug field nor the
sending session's binding is consulted: the outcome is invariant under any
change of the binding table. -/
theorem response_delivery_by_id_only (s : ProxyState) (m : ResponseMessage) :
    ((removePending s.pending m.requestId).1 = none →
        handleClientResponse s m = (s, [])) ∧
    (∀ r rest, removePending s.pending m.requestId = (some r, rest) →
        (handleClientResponse s m).1.pending = rest ∧
        (handleClientResponse s m).2 ≠ []) ∧
    (∀ cl, (handleClientResponse { s with clients := cl } m).1.pending =
            (handleClientResponse s m).1.pending ∧
          (handleClientResponse { s with clients := cl } m).1.stats =
            (handleClientResponse s m).1.stats ∧
          (handleClientResponse { s with clients := cl } m).2 =
            (handleClientResponse s m).2) := by
  refine ⟨?_, ?_, ?_⟩
  · intro h
    have hx := removePending_fst_none h
    simp [handleClientResponse, hx]
  · intro r rest h
    simp [handleClientResponse, h]
  · intro cl
    rcases h : removePending s.pending m.requestId with ⟨o, rest⟩
    cases o with
    | none => simp [handleClientResponse, h]
    | some r => simp [handleClientResponse, h]

/-- C1 witness: on the fresh state no record exists, so a response frame
for id r1 is discarded and the state is unchanged. -/
theorem response_delivery_by_id_only_witness :
    handleClientResponse initState
      { slug := "a", requestId := "r1",
        response := { statusCode := none, headers := none, body := none } } =
      (initState, []) :=
  (response_delivery_by_id_only initState
    { slug := "a", requestId := "r1",
      response := { statusCode := none, headers := none, body := none } }).1 rfl

/-- Sessions 1 and 2 bound to slugs a and b, with record r1 forwarded
through session 1 for slug a. -/
def cex1State : ProxyState :=
  { clients := [("a", 1), ("b", 2)],
    pending := [("r1", { slug := "a", timestamp := 0, startTime := some 0, req := none })],
    stats := emptyStats }

/-- A response frame for the record r1 naming slug b. -/
def cex1Msg : ResponseMessage :=
  { slug := "b", requestId := "r1",
    response := { statusCode := some 201, headers := none, body := some "x" } }

/-- C1 (counterexample): pending record r1 belongs to slug a; the response
frame names slug b and is sent by session 2, whose binding slug is b, not
the record's slug a. The claim demands that the response be discarded and
the pending record left untouched; the source delivers the response and
completes the record (handleClientResponse never receives the sending
session and never compares slugs). -/
theorem response_slug_mismatch_delivered :
    (handleClientResponse cex1State cex1Msg).1.pending = [] ∧
    (handleClientResponse cex1State cex1Msg).2 =
      [{ requestId := "r1", status := 201, headers := [], body := "x" }] := by
  decide

/-! ## Claim C6 -/

/-- C6 (amended): when a response frame completes a pending record, the
reply body equals the frame's response.body bit-for-bit (empty when
absent), the headers default to empty, and the status code equals
response.statusCode whenever that field is present and nonzero, with 200
used when the field is absent or equal to the falsy number 0. -/
theorem response_reply_shape (s : ProxyState) (m : ResponseMessage) (r : PendingRecord)
    (rest : List (String × PendingRecord))
    (h : removePending s.pending m.requestId = (some r, rest)) :
    (handleClientResponse s m).2 =
      [{ requestId := m.requestId, status := jsOrStatus m.response.statusCode,
         headers := m.response.headers.getD [], body := m.response.body.getD "" }] ∧
    (∀ n, m.response.statusCode = some n → n ≠ 0 → jsOrStatus m.response.statusCode = n) ∧
    (m.response.statusCode = none → jsOrStatus m.response.statusCode = 200) ∧
    (m.response.statusCode = some 0 → jsOrStatus m.response.statusCode = 200) := by
  refine ⟨?_, ?_, ?_, ?_⟩
  · simp [handleClientResponse, h]
  · intro n hn hz
    simp [jsOrStatus, hn, hz]
  · intro hn
    simp [jsOrStatus, hn]
  · intro hn
    simp [jsOrStatus, hn]

/-- A state holding one forwarded record r2 for the bound slug a. -/
def cex6State : ProxyState :=
  { clients := [("a", 1)],
    pending := [("r2", { slug := "a", timestamp := 0, startTime := some 0, req := none })],
    stats := emptyStats }

/-- The record stored under r2 in cex6State. -/
def cex6Rec : PendingRecord :=
  { slug := "a", timestamp := 0, startTime := some 0, req := none }

/-- C6 witness: a response frame with status 7 and body ok for record r2
produces exactly that reply. -/
theorem response_reply_shape_witness :
    (handleClientResponse cex6State
      { slug := "a", requestId := "r2",
        response := { statusCode := some 7, headers := none, body := some "ok" } }).2 =
      [{ requestId := "r2", status := 7, headers := [], body := "ok" }] :=
  (response_reply_shape cex6State
    { slug := "a", requestId := "r2",
      response := { statusCode := some 7, headers := none, body := some "ok" } }
    cex6Rec [] (by decide)).1

/-- A response frame carrying the explicit statusCode 0. -/
def cex6Msg : ResponseMessage :=
  { slug := "a", requestId := "r2",
    response := { statusCode := some 0, headers := none, body := some "ok" } }

/-- C6 (counterexample): a response frame whose statusCode field is present
and equal to 0 is answered with status 200, not with the frame's
statusCode, because the source computes response.statusCode or-else 200
and 0 is falsy; so the claim that the reply status code equals
response.statusCode whenever the field is present is false. -/
theorem response_statuscode_zero_coerced :
    cex6Msg.response.statusCode = some 0 ∧
    (handleClientResponse cex6State cex6Msg).2 =
      [{ requestId := "r2", status := 200, headers := [], body := "ok" }] ∧
    ¬((handleClientResponse cex6State cex6Msg).2.map ReplyEvent.status = [0]) := by
  decide

/-! ## Claim C2 -/

/-- A small well-formed inbound request used at concrete inputs. -/
def sampleReq : HttpRequest :=
  { method := "GET", url := "/a", headers := [], chunks := [] }

/-- C2 (counterexample): a request admitted while no handler is bound is
queued without totalRequests being incremented, so immediately afterwards
succeeded plus failed plus pending is 1 while received is 0 and the claimed
identity fails. -/
theorem stats_identity_fails_on_queueing :
    ¬ statsInvariant (handleRequestWithoutClient initState "r1" "a" sampleReq 0).1 := by
  simp [statsInvariant, handleRequestWithoutClient, initState, emptyStats]

/-- C2 (amended): the identity succeeded plus failed plus pending equals
received is preserved by the forwarded-request lifecycle: forwarding a
fresh request to a bound handler (whether capture and send succeed or
fail), delivering a response, and firing the forward deadline. It does not
hold globally, because queueing a request while no handler is bound grows
the pending table without touching received, and admission rejections,
queue-wait expiry, session-loss cancellation and memory cleanup also leave
the counters behind. -/
theorem stats_identity_forwarded_lifecycle (maxSize : Nat) (s : ProxyState)
    (rid slug : String) (req : HttpRequest) (sendOk : Bool) (now : Int)
    (m : ResponseMessage) (rid2 : String)
    (hinv : statsInvariant s)
    (hfresh : (removePending s.pending rid).1 = none) :
    statsInvariant (handleRequestWithClient maxSize s rid slug req sendOk now).1 ∧
    statsInvariant (handleClientResponse s m).1 ∧
    statsInvariant (requestTimeout s rid2).1 := by
  simp only [statsInvariant] at hinv
  refine ⟨?_, ?_, ?_⟩
  · rcases hc : collectRequestData maxSize req with e | c
    · simp [statsInvariant, handleRequestWithClient, hc]
      omega
    · cases sendOk with
      | true =>
          simp [statsInvariant, handleRequestWithClient, hc]
          omega
      | false =>
          simp [statsInvariant, handleRequestWithClient, hc]
          omega
  · rcases h : removePending s.pending m.requestId with ⟨o, rest⟩
    cases o with
    | none => simpa [statsInvariant, handleClientResponse, h] using hinv
    | some r =>
        have hlen := removePending_some_length h
        simp [statsInvariant, handleClientResponse, h]
        omega
  · rcases h : removePending s.pending rid2 with ⟨o, rest⟩
    cases o with
    | none => simpa [statsInvariant, requestTimeout, h] using hinv
    | some r =>
        have hlen := removePending_some_length h
        simp [statsInvariant, requestTimeout, h]
        omega

/-- C2 witness: the preserved identity at a concrete successful forward
from the fresh state. -/
theorem stats_identity_forwarded_lifecycle_witness :
    statsInvariant (handleRequestWithClient maxRequestSize initState "r1" "a"
      sampleReq true 0).1 :=
  (stats_identity_forwarded_lifecycle maxRequestSize initState "r1" "a" sampleReq true 0
    { slug := "a", requestId := "r9",
      response := { statusCode := none, headers := none, body := none } } "r9"
    rfl rfl).1

/-! ## Claim C4 -/

lemma rejectLoop_eq (slug : String) (l : List (String × PendingRecord)) :
    rejectLoop slug l =
      (l.filter (fun p => !decide (p.2.slug = slug)),
       (l.filter (fun p => decide (p.2.slug = slug))).map
         (fun p => { requestId := p.1, status := 503, headers := [],
                     body := "No active WebSocket client for this slug" })) := by
  induction l with
  | nil => rfl
  | cons hd tl ih =>
      obtain ⟨k, r⟩ := hd
      by_cases hm : r.slug = slug
      · simp [rejectLoop, ih, hm]
      · simp [rejectLoop, ih, hm]

/-- C4 (amended): when a bound handler session is lost, its binding is
removed and every pending record of its slug, already forwarded or still
queued, is cancelled with a 503 reply; records of other slugs survive and
the counters are unchanged. No unforwarded record of the slug is left for
a later binding. -/
theorem session_loss_cancels_slug_records (s : ProxyState) (sess : Nat)
    (slug : String) (cl' : List (String × Nat))
    (h : removeClientEntry s.clients sess = (some slug, cl')) :
    (removeClient s sess).1.pending =
      s.pending.filter (fun p => !decide (p.2.slug = slug)) ∧
    (removeClient s sess).2 =
      (s.pending.filter (fun p => decide (p.2.slug = slug))).map
        (fun p => { requestId := p.1, status := 503, headers := [],
                    body := "No active WebSocket client for this slug" }) ∧
    (removeClient s sess).1.stats = s.stats ∧
    (removeClient s sess).1.clients = cl' := by
  simp [removeClient, h, rejectPendingRequestsForSlug, rejectLoop_eq]

/-- A state where session 1 is bound to slug a and one record of slug a is
still unforwarded: reachable when a request arrives while the bound socket
is already closing (readyState no longer OPEN routes it to the queue path)
and the close event then runs removeClient. -/
def cex4State : ProxyState :=
  { clients := [("a", 1)],
    pending := [("q1", { slug := "a", timestamp := 0, startTime := none, req := some sampleReq })],
    stats := emptyStats }

/-- C4 witness: losing session 1 in cex4State leaves the counters
unchanged. -/
theorem session_loss_cancels_slug_records_witness :
    (removeClient cex4State 1).1.stats = cex4State.stats :=
  (session_loss_cancels_slug_records cex4State 1 "a" [] rfl).2.2.1

/-- C4 (counterexample): the sole pending record of slug a in cex4State was
never forwarded through session 1, so the claim requires it to stay in the
pending table when the session is lost; the source deletes it and writes a
503 to its caller. -/
theorem session_loss_deletes_unforwarded :
    (cex4State.pending.map (fun p => p.2.isForwarded)) = [false] ∧
    (removeClient cex4State 1).1.pending = [] ∧
    (removeClient cex4State 1).2.map ReplyEvent.status = [503] := by
  decide

/-! ## Claim C5 -/

lemma drainLoop_spec (maxSize : Nat) (now : Int) (newId : Nat → String)
    (sendOk : Nat → Bool) (slug : String) (l : List (String × PendingRecord))
    (i : Nat) (st : Stats) :
    (drainLoop maxSize now newId sendOk slug l i st).processed =
      (l.filter (fun p => decide (p.2.slug = slug))).map Prod.fst ∧
    (drainLoop maxSize now newId sendOk slug l i st).kept =
      l.filter (fun p => !decide (p.2.slug = slug)) ∧
    (∀ e ∈ (drainLoop maxSize now newId sendOk slug l i st).events, e.status = 500) ∧
    (∀ p ∈ (drainLoop maxSize now newId sendOk slug l i st).inserted,
        p.2.isForwarded = true ∧ p.2.slug = slug) := by
  induction l generalizing i st with
  | nil => simp [drainLoop]
  | cons hd tl ih =>
      obtain ⟨k, r⟩ := hd
      by_cases hm : r.slug = slug
      · rcases hq : r.req with _ | q
        · have ihx := ih (i + 1)
            ({ { st with totalRequests := st.totalRequests + 1 } with
               failedResponses := st.failedResponses + 1 })
          refine ⟨?_, ?_, ?_, ?_⟩
          · simp [drainLoop, hm, hq, ihx.1]
          · simp [drainLoop, hm, hq, ihx.2.1]
          · intro e he
            simp [drainLoop, hm, hq] at he
            rcases he with he | he
            · rw [he]
            · exact ihx.2.2.1 e he
          · intro p hp
            simp [drainLoop, hm, hq] at hp
            exact ihx.2.2.2 p hp
        · rcases hc : collectRequestData maxSize q with e | c
          · have ihx := ih (i + 1)
              ({ { st with totalRequests := st.totalRequests + 1 } with
                 failedResponses := st.failedResponses + 1 })
            refine ⟨?_, ?_, ?_, ?_⟩
            · simp [drainLoop, hm, hq, handleRequestWithClient, hc, ihx.1]
            · simp [drainLoop, hm, hq, handleRequestWithClient, hc, ihx.2.1]
            · intro ev he
              simp [drainLoop, hm, hq, handleRequestWithClient, hc] at he
              rcases he with he | he
              · rw [he]
              · exact ihx.2.2.1 ev he
            · intro p hp
              simp [drainLoop, hm, hq, handleRequestWithClient, hc] at hp
              exact ihx.2.2.2 p hp
          · cases hs : sendOk i with
            | true =>
                have ihx := ih (i + 1)
                  ({ st with totalRequests := st.totalRequests + 1 })
                refine ⟨?_, ?_, ?_, ?_⟩
                · simp [drainLoop, hm, hq, handleRequestWithClient, hc, hs, ihx.1]
                · simp [drainLoop, hm, hq, handleRequestWithClient, hc, hs, ihx.2.1]
                · intro ev he
                  simp [drainLoop, hm, hq, handleRequestWithClient, hc, hs] at he
                  exact ihx.2.2.1 ev he
                · intro p hp
                  simp [drainLoop, hm, hq, handleRequestWithClient, hc, hs] at hp
                  rcases hp with hp | hp
                  · rw [hp]
                    simp [PendingRecord.isForwarded, hm]
                  · exact ihx.2.2.2 p hp
            | false =>
                have ihx := ih (i + 1)
                  ({ { st with totalRequests := st.totalRequests + 1 } with
                     failedResponses := st.failedResponses + 1 })
                refine ⟨?_, ?_, ?_, ?_⟩
                · simp [drainLoop, hm, hq, handleRequestWithClient, hc, hs, ihx.1]
                · simp [drainLoop, hm, hq, handleRequestWithClient, hc, hs, ihx.2.1]
                · intro ev he
                  simp [drainLoop, hm, hq, handleRequestWithClient, hc, hs] at he
                  rcases he with he | he
                  · rw [he]
                  · exact ihx.2.2.1 ev he
                · intro p hp
                  simp [drainLoop, hm, hq, handleRequestWithClient, hc, hs] at hp
                  exact ihx.2.2.2 p hp
      · have ihx := ih i st
        refine ⟨?_, ?_, ?_, ?_⟩
        · simp [drainLoop, hm, ihx.1]
        · simp [drainLoop, hm, ihx.2.1]
        · intro ev he
          simp [drainLoop, hm] at he
          exact ihx.2.2.1 ev he
        · intro p hp
          simp [drainLoop, hm] at hp
          exact ihx.2.2.2 p hp

/-- C5 (amended): when a handler binds to a slug with queued records, the
drain visits exactly the records of that slug in their admission order;
every reply written during the drain is a 500 completion of a record whose
forwarding failed, and the drain is never aborted: after it no unforwarded
record of the slug remains in the table, even when an earlier forwarding
failed. -/
theorem drain_order_and_continuation (maxSize : Nat) (now : Int)
    (newId : Nat → String) (sendOk : Nat → Bool) (s : ProxyState) (slug : String) :
    (drainLoop maxSize now newId sendOk slug s.pending 0 s.stats).processed =
      (s.pending.filter (fun p => decide (p.2.slug = slug))).map Prod.fst ∧
    (processPendingRequestsForSlug maxSize now newId sendOk s slug).2.2 =
      (s.pending.filter (fun p => decide (p.2.slug = slug))).length ∧
    (∀ p ∈ (processPendingRequestsForSlug maxSize now newId sendOk s slug).1.pending,
        p.2.slug = slug → p.2.isForwarded = true) ∧
    (∀ e ∈ (processPendingRequestsForSlug maxSize now newId sendOk s slug).2.1,
        e.status = 500) := by
  have hs := drainLoop_spec maxSize now newId sendOk slug s.pending 0 s.stats
  refine ⟨hs.1, ?_, ?_, ?_⟩
  · simp [processPendingRequestsForSlug, hs.1]
  · intro p hp hslug
    simp only [processPendingRequestsForSlug, List.mem_append] at hp
    rcases hp with hp | hp
    · rw [hs.2.1] at hp
      have := List.of_mem_filter hp
      simp [hslug] at this
    · exact ((hs.2.2.2 p hp).1)
  · intro e he
    simp only [processPendingRequestsForSlug] at he
    exact hs.2.2.1 e he

/-- Two queued records for slug a, admitted in the order q1 then q2. -/
def cex5State : ProxyState :=
  { clients := [],
    pending := [("q1", { slug := "a", timestamp := 0, startTime := none, req := some sampleReq }),
                ("q2", { slug := "a", timestamp := 1, startTime := none, req := some sampleReq })],
    stats := emptyStats }

/-- Fresh ids drawn during the drain. -/
def cex5NewId : Nat → String := fun i => "n" ++ toString i

/-- A session whose send always fails. -/
def cex5SendFail : Nat → Bool := fun _ => false

/-- C5 witness: on cex5State the drain of slug a visits q1 then q2, their
admission order. -/
theorem drain_order_and_continuation_witness :
    (drainLoop maxRequestSize 0 cex5NewId cex5SendFail "a"
      cex5State.pending 0 cex5State.stats).processed = ["q1", "q2"] := by
  rw [(drain_order_and_continuation maxRequestSize 0 cex5NewId cex5SendFail cex5State "a").1]
  decide

/-- C5 (counterexample): draining slug a of cex5State against a session
whose first send already fails processes both queued records, replies 500
to each and empties the table; the claim requires the drain to abort after
the first failure and leave q2 queued in place. -/
theorem drain_does_not_abort_on_failure :
    (processPendingRequestsForSlug maxRequestSize 0 cex5NewId cex5SendFail cex5State "a").2.2 = 2 ∧
    (processPendingRequestsForSlug maxRequestSize 0 cex5NewId cex5SendFail cex5State "a").1.pending = [] ∧
    (processPendingRequestsForSlug maxRequestSize 0 cex5NewId cex5SendFail
        cex5State "a").2.1.map ReplyEvent.status = [500, 500] := by
  decide

/-! ## Claim C3 -/

lemma string_empty_append (s : String) : "" ++ s = s := by
  cases s
  rfl

lemma collect_bodyTooLarge_of_accum (maxSize : Nat) (req : HttpRequest)
    (h : accumulateBody maxSize req.chunks "" = none) :
    collectRequestData maxSize req = .error .bodyTooLarge := by
  unfold collectRequestData
  rw [h]

lemma hrwc_events_of_collect_error (maxSize : Nat) (s : ProxyState) (rid slug : String)
    (req : HttpRequest) (sendOk : Bool) (now : Int) (e : CollectError)
    (h : collectRequestData maxSize req = .error e) :
    (handleRequestWithClient maxSize s rid slug req sendOk now).2 =
      [{ requestId := rid, status := 500, headers := [], body := "Internal server error" }] := by
  simp [handleRequestWithClient, h]

/-- C3 (amended): body accumulation rejects as soon as the accumulated
length exceeds the configured maximum, without examining the remaining
chunks; a body of exactly the maximum size is accepted; and the rejection
surfaces to the HTTP caller as a 500 reply (the oversize rejection lands in
the generic catch block of handleRequestWithClient, not in a 413 path). -/
theorem body_limit_rejection (maxSize : Nat) (acc c : String) (rest : List String)
    (b : String) (s : ProxyState) (rid slug : String) (req : HttpRequest)
    (sendOk : Bool) (now : Int) :
    (maxSize < (acc ++ c).length → accumulateBody maxSize (c :: rest) acc = none) ∧
    (b.length = maxSize → accumulateBody maxSize [b] "" = some b) ∧
    (collectRequestData maxSize req = .error .bodyTooLarge →
        (handleRequestWithClient maxSize s rid slug req sendOk now).2.map
          ReplyEvent.status = [500]) := by
  refine ⟨?_, ?_, ?_⟩
  · intro h
    simp only [accumulateBody]
    rw [if_pos h]
  · intro hb
    simp [accumulateBody, string_empty_append, hb]
  · intro hc
    simp [handleRequestWithClient, hc]

/-- C3 witness: with the maximum set to 3 a three-byte body is accepted
whole. -/
theorem body_limit_rejection_witness :
    accumulateBody 3 ["abc"] "" = some "abc" :=
  (body_limit_rejection 3 "" "x" [] "abc" initState "r1" "a" sampleReq true 0).2.1 rfl

/-- A body one byte over the 10 MiB maximum. -/
def oversizeBody : String := String.mk (List.replicate (maxRequestSize + 1) 'a')

/-- A request whose single chunk is one byte over the maximum. -/
def oversizeReq : HttpRequest :=
  { method := "GET", url := "/a", headers := [], chunks := [oversizeBody] }

/-- C3 (counterexample): a request whose body is one byte over the 10 MiB
maximum is rejected during accumulation, but the HTTP caller receives
status 500 with the generic internal-error body, not the claimed 413. -/
theorem oversize_body_rejected_with_500 :
    accumulateBody maxRequestSize oversizeReq.chunks "" = none ∧
    (handleRequestWithClient maxRequestSize initState "r1" "a" oversizeReq true 0).2.map
      ReplyEvent.status = [500] ∧
    ¬((handleRequestWithClient maxRequestSize initState "r1" "a" oversizeReq true 0).2.map
        ReplyEvent.status = [413]) := by
  have h1 : ("" : String) ++ oversizeBody = oversizeBody := string_empty_append _
  have h2 : oversizeBody.length = maxRequestSize + 1 := by
    show (List.replicate (maxRequestSize + 1) 'a').length = maxRequestSize + 1
    simp
  have hacc : accumulateBody maxRequestSize [oversizeBody] "" = none := by
    simp [accumulateBody, h1, h2]
  have haccr : accumulateBody maxRequestSize oversizeReq.chunks "" = none := by
    rw [show oversizeReq.chunks = [oversizeBody] from rfl]
    exact hacc
  have hcol := collect_bodyTooLarge_of_accum maxRequestSize oversizeReq haccr
  have hre := hrwc_events_of_collect_error maxRequestSize initState "r1" "a"
    oversizeReq true 0 .bodyTooLarge hcol
  refine ⟨haccr, ?_, ?_⟩
  · rw [hre]
    rfl
  · rw [hre]
    simp

/-! ## Claim C7 -/

lemma admitSeq_append (m : Nat) (a b s : List Int) :
    admitSeq m (a ++ b) s =
      ((admitSeq m a s).1 ++ (admitSeq m b (admitSeq m a s).2).1,
       (admitSeq m b (admitSeq m a s).2).2) := by
  induction a generalizing s with
  | nil => simp [admitSeq]
  | cons t ts ih => simp [admitSeq, ih]

lemma admitSeq_all_admitted (m : Nat) (B : Int) (arr : List Int) :
    ∀ (s : List Int),
      s.length + arr.length ≤ m →
      (∀ t ∈ s, B < t) →
      (∀ t ∈ arr, B < t ∧ t ≤ B + 60000) →
      admitSeq m arr s = (List.replicate arr.length true, s ++ arr) := by
  induction arr with
  | nil =>
      intro s _ _ _
      simp [admitSeq]
  | cons now rest ih =>
      intro s hlen hsmem harr
      have hnow := harr now (List.mem_cons_self now rest)
      have hprune : s.filter (fun t => decide (now - 60000 < t)) = s := by
        apply List.filter_eq_self.mpr
        intro t ht
        have hbt := hsmem t ht
        simp only [decide_eq_true_eq]
        omega
      have hlt : ¬(m ≤ s.length) := by
        simp only [List.length_cons] at hlen
        omega
      have ih' := ih (s ++ [now])
        (by simp only [List.length_append, List.length_cons, List.length_nil] at hlen ⊢; omega)
        (by intro t ht
            rcases List.mem_append.mp ht with h | h
            · exact hsmem t h
            · simp only [List.mem_singleton] at h
              subst h
              exact hnow.1)
        (fun t ht => harr t (List.mem_cons_of_mem now ht))
      simp [admitSeq, checkRateLimit, hprune, hlt, ih', List.replicate_succ]

/-- C7: for one source address, when maxReq plus one requests all arrive
within the trailing 60 second window of the last one (timestamps each above
tlast minus 60000 and at most tlast), the gate admits exactly the first
maxReq of them and refuses the last, which the HTTP layer answers with
status 429. The source default for maxReq is 100. -/
theorem rate_limit_window_boundary (maxReq : Nat) (l : List Int) (tlast : Int)
    (hlen : l.length = maxReq)
    (hwin : ∀ t ∈ l, tlast - 60000 < t ∧ t ≤ tlast) :
    (admitSeq maxReq (l ++ [tlast]) []).1 = List.replicate maxReq true ++ [false] ∧
    (admitSeq maxReq (l ++ [tlast]) []).1.map rateLimitStatus =
      List.replicate maxReq (none : Option Nat) ++ [some 429] := by
  have hall := admitSeq_all_admitted maxReq (tlast - 60000) l []
    (by simp [hlen])
    (by intro t ht; simp at ht)
    (by intro t ht
        have := hwin t ht
        omega)
  have hprune : l.filter (fun t => decide (tlast - 60000 < t)) = l := by
    apply List.filter_eq_self.mpr
    intro t ht
    simp only [decide_eq_true_eq]
    exact (hwin t ht).1
  have hge : maxReq ≤ l.length := by omega
  have htail : admitSeq maxReq [tlast] l = ([false], l) := by
    simp [admitSeq, checkRateLimit, hprune, hge]
  have happ := admitSeq_append maxReq l [tlast] []
  rw [hall] at happ
  simp only [List.nil_append] at happ
  rw [htail] at happ
  constructor
  · rw [happ]
    simp [hlen]
  · rw [happ]
    simp [hlen, rateLimitStatus]

/-- C7 witness: 101 requests at the same instant from one address; the
first 100 are admitted and the 101st refused. -/
theorem rate_limit_window_boundary_witness :
    (admitSeq 100 (List.replicate 100 (100000 : Int) ++ [100000]) []).1 =
      List.replicate 100 true ++ [false] :=
  (rate_limit_window_boundary 100 (List.replicate 100 (100000 : Int)) 100000
    (by simp)
    (by intro t ht
        have h := List.eq_of_mem_replicate ht
        subst h
        constructor <;> omega)).1

end WebhookProxy
